import Mathlib

/-!
Shallow embedding of the CLUT (palette) subsystem of `src/pcsx2/GS/GSClut.cpp`.

Buffers (`m_clut` as an array of 16-bit entries, `m_buff32` as an array of
32-bit entries, `m_buff64` as an array of 64-bit entries, and the source video
memory as an array of 32-bit words) are modelled as functions `ℕ → ℕ`; a read
of a 16-bit slot reduces the stored value `% 65536`, a 32-bit source word is
split into its two 16-bit halves exactly where the C code reinterprets the
bytes.  SSE vectors of eight 16-bit lanes are modelled as functions from the
lane index to the lane value.
-/

namespace GSClut

/-- Buffer of machine words, indexed by element position. -/
abbrev Buf := ℕ → ℕ

/-- SSE 128-bit vector viewed as eight 16-bit lanes (lane index ↦ lane value). -/
abbrev V := ℕ → ℕ

/-- Modelled from the spec: the vector helper `upl16` (punpcklwd) of the
GSVector header, which is part of this repository but not under `src/`;
it interleaves the four low 16-bit lanes of the two operands
(§4.4: exact per-lane interleave semantics must be preserved). -/
def upl16 (a b : V) (i : ℕ) : ℕ :=
  if i % 2 = 0 then a (i / 2) else b (i / 2)

/-- Modelled from the spec: the vector helper `uph16` (punpckhwd) of the
GSVector header; it interleaves the four high 16-bit lanes of the operands. -/
def uph16 (a b : V) (i : ℕ) : ℕ :=
  if i % 2 = 0 then a (i / 2 + 4) else b (i / 2 + 4)

/-- Modelled from the spec: the vector helper `upl32` (punpckldq) of the
GSVector header; it interleaves the two low 32-bit lanes of the operands. -/
def upl32 (a b : V) (i : ℕ) : ℕ :=
  if i / 2 % 2 = 0 then a (i / 4 * 2 + i % 2) else b (i / 4 * 2 + i % 2)

/-- Modelled from the spec: the vector helper `uph32` (punpckhdq) of the
GSVector header; it interleaves the two high 32-bit lanes of the operands. -/
def uph32 (a b : V) (i : ℕ) : ℕ :=
  if i / 2 % 2 = 0 then a (i / 4 * 2 + i % 2 + 4) else b (i / 4 * 2 + i % 2 + 4)

/-- Vector load of four consecutive 32-bit words of `src` starting at word
`off`, viewed as eight 16-bit lanes (low half in the even lane, high half in
the odd lane, little-endian as in the C reinterpretation `(GSVector4i*)src`). -/
def loadV32 (src : Buf) (off i : ℕ) : ℕ :=
  if i % 2 = 0 then src (off + i / 2) % 65536 else src (off + i / 2) / 65536 % 65536

/-- Vector load of eight consecutive 16-bit entries of a 16-bit buffer. -/
def loadC (buf : Buf) (off i : ℕ) : ℕ := buf (off + i) % 65536

/-- Vector store of eight 16-bit lanes into a 16-bit buffer at entry `off`. -/
def store16 (buf : Buf) (off : ℕ) (v : V) (m : ℕ) : ℕ :=
  if off ≤ m ∧ m < off + 8 then v (m - off) else buf m

/-- Vector store of eight 16-bit lanes into a 32-bit buffer at word `off`
(each 32-bit word is the even lane plus `65536` times the odd lane). -/
def store32 (buf : Buf) (off : ℕ) (v : V) (m : ℕ) : ℕ :=
  if off ≤ m ∧ m < off + 4 then v (2 * (m - off)) + 65536 * v (2 * (m - off) + 1) else buf m

/-- Vector store of eight 16-bit lanes into a 64-bit buffer at word `off`. -/
def store64 (buf : Buf) (off : ℕ) (v : V) (m : ℕ) : ℕ :=
  if off ≤ m ∧ m < off + 2 then
    v (4 * (m - off)) + 65536 * v (4 * (m - off) + 1) +
      4294967296 * v (4 * (m - off) + 2) + 281474976710656 * v (4 * (m - off) + 3)
  else buf m

/-- Modelled from the spec: the fixed source-column reordering table
`clutTableT32I8` declared in the GSClut header, which is part of this
repository but not under `src/` (§4.4: the 8-bit-index table load sources
each destination half-block "from a permuted 16-entry block of the raw data
using a fixed reordering table ... so that the resulting palette entry order
matches how the rasterizer's index bits are wired").  Only the entries at the
indices `off & 0x70 ∈ {0,16,...,112}` are ever consulted by
`WriteCLUT_T32_I8_CSM1`; they give the source column of each destination
16-entry strip, following the PSMCT32 block/column storage order. -/
def clutTableT32I8 (i : ℕ) : ℕ :=
  if i = 0 then 0
  else if i = 16 then 64
  else if i = 32 then 16
  else if i = 48 then 80
  else if i = 64 then 32
  else if i = 80 then 96
  else if i = 96 then 48
  else if i = 112 then 112
  else 0

/-- Embedding of `GSClut::WriteCLUT_T32_I4_CSM1` (the `#else`, SSE path):
loads the 16 source 32-bit words `src[so..so+15]`, applies
`sw16(v0,v1,v2,v3); sw32(v0,v1,v2,v3); sw16(v0,v2,v1,v3)` and stores the four
resulting vectors at `d[0]`, `d[1]`, `d[32]`, `d[33]` of the 16-bit
destination `clut + co`. -/
def WriteCLUT_T32_I4_CSM1 (src : Buf) (so : ℕ) (clut : Buf) (co : ℕ) : Buf :=
  let v0 := loadV32 src so
  let v1 := loadV32 src (so + 4)
  let v2 := loadV32 src (so + 8)
  let v3 := loadV32 src (so + 12)
  let a0 := upl16 v0 v1
  let a1 := upl16 v2 v3
  let a2 := uph16 v0 v1
  let a3 := uph16 v2 v3
  let b0 := upl32 a0 a1
  let b1 := upl32 a2 a3
  let b2 := uph32 a0 a1
  let b3 := uph32 a2 a3
  let c0 := upl16 b0 b2
  let c2 := upl16 b1 b3
  let c1 := uph16 b0 b2
  let c3 := uph16 b1 b3
  store16 (store16 (store16 (store16 clut co c0) (co + 8) c2) (co + 256) c1) (co + 264) c3

/-- Embedding of `GSClut::WriteCLUT_T32_I8_CSM1`: for `i = offset .. 15`,
with `off = i << 4`, load the 16-entry strip at the source column
`clutTableT32I8[off & 0x70] | (off & 0x80)` into `clut + off`. -/
def WriteCLUT_T32_I8_CSM1 (src clut : Buf) (offset : ℕ) : Buf :=
  ((List.range 16).drop offset).foldl
    (fun c i =>
      WriteCLUT_T32_I4_CSM1 src
        (clutTableT32I8 (16 * i &&& 112) ||| (16 * i &&& 128)) c (16 * i))
    clut

/-- Embedding of `GSClut::ReadCLUT_T32_I4`: loads `s[0], s[1], s[32], s[33]`
of the 16-bit source `clut + co`, applies `sw16(v0,v2,v1,v3)` and stores the
four resulting vectors to the 32-bit destination words `dst[dof..dof+15]`. -/
def ReadCLUT_T32_I4 (clut : Buf) (co : ℕ) (dst : Buf) (dof : ℕ) : Buf :=
  let v0 := loadC clut co
  let v1 := loadC clut (co + 8)
  let v2 := loadC clut (co + 256)
  let v3 := loadC clut (co + 264)
  let w0 := upl16 v0 v2
  let w2 := upl16 v1 v3
  let w1 := uph16 v0 v2
  let w3 := uph16 v1 v3
  store32 (store32 (store32 (store32 dst dof w0) (dof + 4) w1) (dof + 8) w2) (dof + 12) w3

/-- Embedding of `GSClut::ReadCLUT_T32_I8`: for `i = 0, 16, ..., 240`,
expand the strip `ReadCLUT_T32_I4(&clut[min(i + offset, 240)], &dst[i])`
(the effective source entry is clamped at 240, it does not wrap). -/
def ReadCLUT_T32_I8 (clut dst : Buf) (offset : ℕ) : Buf :=
  (List.range 16).foldl
    (fun d i => ReadCLUT_T32_I4 clut (min (16 * i + offset) 240) d (16 * i)) dst

/-- Helper describing the net lane order produced by the
`sw16; sw32; sw16` swizzle sequence of `WriteCLUT_T32_I4_CSM1` on one
16-entry strip (it coincides with the PSMCT32 column storage order). -/
def columnOrder32 (m : ℕ) : ℕ := [0, 1, 4, 5, 8, 9, 12, 13, 2, 3, 6, 7, 10, 11, 14, 15].getD m 0

/-- Source word index feeding logical palette entry `n` after an 8-bit-index
CSM1 table load followed by the 32-bit read expansion: the block column given
by `clutTableT32I8` plus the lane reordering of the swizzle sequence. -/
def csm1SrcIndex (n : ℕ) : ℕ :=
  (clutTableT32I8 (16 * (n / 16) &&& 112) ||| (16 * (n / 16) &&& 128)) +
    columnOrder32 (n % 16)

/-- Modelled from the spec: the broadcasting constructor `GSVector4i(int)` of
the GSVector header (all four 32-bit lanes equal to `x`), viewed as eight
16-bit lanes. -/
def bcast32 (x i : ℕ) : ℕ := if i % 2 = 0 then x % 65536 else x / 65536 % 65536

/-- Modelled from the spec: lanewise bitwise and (`pand`) of the GSVector header. -/
def vand (a b : V) (i : ℕ) : ℕ := a i &&& b i

/-- Modelled from the spec: lanewise bitwise or (`por`) of the GSVector header. -/
def vor (a b : V) (i : ℕ) : ℕ := a i ||| b i

/-- Modelled from the spec: 32-bit lanewise left shift (`pslld`, the
`operator<<` of the GSVector header), acting on pairs of 16-bit lanes. -/
def shl32 (a : V) (n i : ℕ) : ℕ :=
  let x := (a (2 * (i / 2)) + 65536 * a (2 * (i / 2) + 1)) <<< n % 4294967296
  if i % 2 = 0 then x % 65536 else x / 65536

/-- Modelled from the spec: 16-bit lanewise arithmetic right shift (`psraw`,
`sra16` of the GSVector header): the sign bit of each 16-bit lane is
replicated into the vacated high bits. -/
def sra16 (a : V) (n i : ℕ) : ℕ :=
  a i % 65536 / 2 ^ n + (65536 - 65536 / 2 ^ n) * (a i % 65536 / 32768)

/-- Modelled from the spec: bytewise blend (`pblendvb`, `blend8` of the
GSVector header): each result byte comes from `b` when the corresponding
mask byte has its high bit set, from `a` otherwise. -/
def blend8 (a b mask : V) (i : ℕ) : ℕ :=
  (if mask i / 128 % 2 = 1 then b i % 256 else a i % 256) +
    256 * (if mask i / 32768 % 2 = 1 then b i / 256 % 256 else a i / 256 % 256)

/-- Modelled from the spec: 32-bit lanewise equality compare (`pcmpeqd`,
`operator==` of the GSVector header): each 32-bit lane becomes all-ones when
equal, zero otherwise. -/
def veq32 (a b : V) (i : ℕ) : ℕ :=
  if a (2 * (i / 2)) % 65536 = b (2 * (i / 2)) % 65536 ∧
      a (2 * (i / 2) + 1) % 65536 = b (2 * (i / 2) + 1) % 65536 then 65535 else 0

/-- Modelled from the spec: the zero vector (`GSVector4i::zero()`). -/
def vzero : V := fun _ => 0

/-- Modelled from the spec: `a.andnot(v) = a & ~v` of the GSVector header. -/
def vandnot (a b : V) (i : ℕ) : ℕ := a i &&& (65535 ^^^ b i % 65536)

/-- TEXA register field `TA0` (bits 0-7 of the 64-bit register). -/
def ta0 (A : ℕ) : ℕ := A &&& 255

/-- TEXA register field `AEM` (bit 15 of the 64-bit register). -/
def aem (A : ℕ) : ℕ := A >>> 15 &&& 1

/-- TEXA register field `TA1` (bits 32-39 of the 64-bit register). -/
def ta1 (A : ℕ) : ℕ := A >>> 32 &&& 255

/-- Embedding of `GSClut::Expand16`: expands `w` 16-bit palette entries of
`src` into 32-bit RGBA words of `dst`, using the channel masks
`m_rm = 0x1f`, `m_gm = 0x3e0`, `m_bm = 0x7c00` and the alpha-expansion
register: alpha is blended from `TA0`/`TA1` by the entry's sign bit, and in
AEM mode additionally cleared (`andnot (c == 0)`) for entries whose raw
16-bit value is zero. -/
def Expand16 (src dst : Buf) (w A : ℕ) : Buf :=
  let rm := bcast32 31
  let gm := bcast32 992
  let bm := bcast32 31744
  let vTA0 := bcast32 (ta0 A <<< 24)
  let vTA1 := bcast32 (ta1 A <<< 24)
  if aem A = 0 then
    (List.range (w >>> 3)).foldl
      (fun d i =>
        let c := loadC src (8 * i)
        let cl := upl16 c c
        let ch := uph16 c c
        store32
          (store32 d (4 * (i * 2))
            (vor (vor (vor (shl32 (vand cl rm) 3) (shl32 (vand cl gm) 6)) (shl32 (vand cl bm) 9))
              (blend8 vTA0 vTA1 (sra16 cl 15))))
          (4 * (i * 2 + 1))
          (vor (vor (vor (shl32 (vand ch rm) 3) (shl32 (vand ch gm) 6)) (shl32 (vand ch bm) 9))
            (blend8 vTA0 vTA1 (sra16 ch 15))))
      dst
  else
    (List.range (w >>> 3)).foldl
      (fun d i =>
        let c := loadC src (8 * i)
        let cl := upl16 c c
        let ch := uph16 c c
        store32
          (store32 d (4 * (i * 2))
            (vor (vor (vor (shl32 (vand cl rm) 3) (shl32 (vand cl gm) 6)) (shl32 (vand cl bm) 9))
              (vandnot (blend8 vTA0 vTA1 (sra16 cl 15)) (veq32 cl vzero))))
          (4 * (i * 2 + 1))
          (vor (vor (vor (shl32 (vand ch rm) 3) (shl32 (vand ch gm) 6)) (shl32 (vand ch bm) 9))
            (vandnot (blend8 vTA0 vTA1 (sra16 ch 15)) (veq32 ch vzero))))
      dst

/-- Modelled from the spec: the 32-bit lane broadcast `xxxx()` of the
GSVector header (lane 0 repeated in all four 32-bit lanes). -/
def vxxxx (a : V) (i : ℕ) : ℕ := a (i % 2)

/-- Modelled from the spec: the 32-bit lane broadcast `yyyy()`. -/
def vyyyy (a : V) (i : ℕ) : ℕ := a (2 + i % 2)

/-- Modelled from the spec: the 32-bit lane broadcast `zzzz()`. -/
def vzzzz (a : V) (i : ℕ) : ℕ := a (4 + i % 2)

/-- Modelled from the spec: the 32-bit lane broadcast `wwww()`. -/
def vwwww (a : V) (i : ℕ) : ℕ := a (6 + i % 2)

/-- Embedding of the two-vector `GSClut::ExpandCLUT64_T32(hi, lo, dst)`:
`dst[0] = lo.upl32(hi); dst[1] = lo.uph32(hi)` into the 64-bit buffer at
word offset `off`. -/
def ExpandCLUT64_T32pair (hi lo : V) (dst : Buf) (off : ℕ) : Buf :=
  store64 (store64 dst off (upl32 lo hi)) (off + 2) (uph32 lo hi)

/-- Embedding of the five-vector `GSClut::ExpandCLUT64_T32(hi, lo0..lo3, dst)`:
sixteen pair expansions with the four 32-bit lanes of `hi` broadcast in turn. -/
def ExpandCLUT64_T32quad (hi lo0 lo1 lo2 lo3 : V) (dst : Buf) (off : ℕ) : Buf :=
  ExpandCLUT64_T32pair (vwwww hi) lo3
    (ExpandCLUT64_T32pair (vwwww hi) lo2
      (ExpandCLUT64_T32pair (vwwww hi) lo1
        (ExpandCLUT64_T32pair (vwwww hi) lo0
          (ExpandCLUT64_T32pair (vzzzz hi) lo3
            (ExpandCLUT64_T32pair (vzzzz hi) lo2
              (ExpandCLUT64_T32pair (vzzzz hi) lo1
                (ExpandCLUT64_T32pair (vzzzz hi) lo0
                  (ExpandCLUT64_T32pair (vyyyy hi) lo3
                    (ExpandCLUT64_T32pair (vyyyy hi) lo2
                      (ExpandCLUT64_T32pair (vyyyy hi) lo1
                        (ExpandCLUT64_T32pair (vyyyy hi) lo0
                          (ExpandCLUT64_T32pair (vxxxx hi) lo3
                            (ExpandCLUT64_T32pair (vxxxx hi) lo2
                              (ExpandCLUT64_T32pair (vxxxx hi) lo1
                                (ExpandCLUT64_T32pair (vxxxx hi) lo0 dst off)
                                (off + 4))
                              (off + 8))
                            (off + 12))
                          (off + 16))
                        (off + 20))
                      (off + 24))
                    (off + 28))
                  (off + 32))
                (off + 36))
              (off + 40))
            (off + 44))
          (off + 48))
        (off + 52))
      (off + 56))
    (off + 60)

/-- Embedding of `GSClut::ExpandCLUT64_T32_I8`: reads the four vectors
`s[0..3]` of the 32-bit source and performs the four quad expansions at
`d[0]`, `d[32]`, `d[64]`, `d[96]` of the 64-bit destination. -/
def ExpandCLUT64_T32_I8 (src dst : Buf) : Buf :=
  let s0 := loadV32 src 0
  let s1 := loadV32 src 4
  let s2 := loadV32 src 8
  let s3 := loadV32 src 12
  ExpandCLUT64_T32quad s3 s0 s1 s2 s3
    (ExpandCLUT64_T32quad s2 s0 s1 s2 s3
      (ExpandCLUT64_T32quad s1 s0 s1 s2 s3
        (ExpandCLUT64_T32quad s0 s0 s1 s2 s3 dst 0) 64) 128) 192

/-- TEX0 register field `PSM` (bits 20-25 of the 64-bit register). -/
def psm (t : ℕ) : ℕ := t >>> 20 &&& 63

/-- TEX0 register field `CBP` (bits 37-50 of the 64-bit register). -/
def cbp (t : ℕ) : ℕ := t >>> 37 &&& 16383

/-- TEX0 register field `CPSM` (bits 51-54 of the 64-bit register). -/
def cpsm (t : ℕ) : ℕ := t >>> 51 &&& 15

/-- TEX0 register field `CSM` (bit 55 of the 64-bit register). -/
def csm (t : ℕ) : ℕ := t >>> 55 &&& 1

/-- TEX0 register field `CSA` (bits 56-60 of the 64-bit register). -/
def csa (t : ℕ) : ℕ := t >>> 56 &&& 31

/-- TEX0 register field `CLD` (bits 61-63 of the 64-bit register). -/
def cld (t : ℕ) : ℕ := t >>> 61 &&& 7

/-- Modelled from the spec: the per-format bits-per-pixel metadata
`GSLocalMemory::m_psm[..].bpp` consumed from the video-memory collaborator
(§6: "per-format bit-depth/palette-size metadata lookup"); 16-bit color
formats have bpp 16, 8-bit indexed has 8, 4-bit indexed has 4, everything
else (including the 24-bit format stored in 32-bit words and the
high-nibble/high-byte indexed formats) has bpp 32, the table default. -/
def psmBpp (p : ℕ) : ℕ :=
  if p = 2 then 16
  else if p = 10 then 16
  else if p = 50 then 16
  else if p = 58 then 16
  else if p = 19 then 8
  else if p = 20 then 4
  else 32

/-- Write-side register snapshot (`GSClut::WriteState`). -/
structure WriteState where
  TEX0 : ℕ
  TEXCLUT : ℕ
  dirty : Bool

/-- Read-side register snapshot (`GSClut::ReadState`). -/
structure ReadState where
  TEX0 : ℕ
  TEXA : ℕ
  dirty : Bool
  adirty : Bool
  amin : ℕ
  amax : ℕ

/-- State of the CLUT subsystem: the two base-pointer slots `m_CBP[0]`,
`m_CBP[1]`, the two snapshots and the three buffers. -/
structure State where
  CBP0 : ℕ
  CBP1 : ℕ
  write : WriteState
  read : ReadState
  clut : Buf
  buff32 : Buf
  buff64 : Buf

/-- Embedding of `GSClut::WriteState::IsDirty`: compares the incoming TEX0
under the mask `0x1FFFFFE000000000` (CSA, CSM, CPSM, CBP), the bit depth of
the pixel format, and (for CSM1 = coordinate-streamed style) the low 32 bits
of TEXCLUT; when not dirty, the snapshot is refreshed to the incoming
registers.  Returns the verdict and the updated snapshot. -/
def WriteState.IsDirty (s : WriteState) (T TC : ℕ) : Bool × WriteState :=
  let mask : ℕ := 0x1FFFFFE000000000
  let is_dirty :=
    if (s.TEX0 ^^^ T) &&& mask ≠ 0 ∨ psmBpp (psm s.TEX0) ≠ psmBpp (psm T) then true
    else if csm T = 1 ∧ (TC &&& 4294967295) ^^^ (s.TEXCLUT &&& 4294967295) ≠ 0 then true
    else s.dirty
  if is_dirty then (true, s) else (false, { s with TEX0 := T, TEXCLUT := TC })

/-- Embedding of `GSClut::ReadState::IsDirty(TEX0, TEXA)`: the TEX0 check of
the write side plus, by destination depth, the TEXA masks `0x80FF`
(AEM, TA0; 24-bit mode) and `0xFF000080FF` (TA1, AEM, TA0; 16-bit modes);
when not dirty, the snapshot is refreshed to the incoming registers. -/
def ReadState.IsDirty (s : ReadState) (T A : ℕ) : Bool × ReadState :=
  let tex0_mask : ℕ := 0x1FFFFFE000000000
  let texa24_mask : ℕ := 0x80FF
  let texa16_mask : ℕ := 0xFF000080FF
  let is_dirty :=
    if (s.TEX0 ^^^ T) &&& tex0_mask ≠ 0 ∨ psmBpp (psm s.TEX0) ≠ psmBpp (psm T) then true
    else if cpsm T = 1 ∧ (s.TEXA ^^^ A) &&& texa24_mask ≠ 0 then true
    else if 2 ≤ cpsm T ∧ (s.TEXA ^^^ A) &&& texa16_mask ≠ 0 then true
    else s.dirty
  if is_dirty then (true, s) else (false, { s with TEX0 := T, TEXA := A })

/-- Helper for `WriteTest`: runs the write-side dirty check and folds the
updated snapshot back into the whole state. -/
def wtDirty (s : State) (T TC : ℕ) : Bool × State :=
  let r := WriteState.IsDirty s.write T TC
  (r.1, { s with write := r.2 })

/-- Embedding of `GSClut::WriteTest`: non-indexed formats
(`(TEX0.PSM & 0x7) < 3`) return `false` before anything is touched; the
load-mode `CLD` is then dispatched (0: never; 1: dirty-check; 2/3:
unconditionally update slot A/B then dirty-check; 4/5: update slot A/B and
dirty-check only when the incoming pointer differs, else `false`;
6/7: never). -/
def WriteTest (s : State) (T TC : ℕ) : Bool × State :=
  if psm T &&& 7 < 3 then (false, s)
  else if cld T = 0 then (false, s)
  else if cld T = 1 then wtDirty s T TC
  else if cld T = 2 then wtDirty { s with CBP0 := cbp T } T TC
  else if cld T = 3 then wtDirty { s with CBP1 := cbp T } T TC
  else if cld T = 4 then
    if s.CBP0 = cbp T then (false, s) else wtDirty { s with CBP0 := cbp T } T TC
  else if cld T = 5 then
    if s.CBP1 = cbp T then (false, s) else wtDirty { s with CBP1 := cbp T } T TC
  else (false, s)

/-- Embedding of `GSClut::Write`: stores the incoming registers in the
write-side snapshot, sets the read-side dirty flag, clears the write-side
dirty flag and invokes the dispatch-table routine; the dispatched member
function `m_wc[TEX0.CSM][TEX0.CPSM][TEX0.PSM]` mutates only the palette
buffer and is passed in as `wc`. -/
def Write (wc : State → ℕ → ℕ → Buf) (s : State) (T TC : ℕ) : State :=
  let s1 : State :=
    { s with
      write := { TEX0 := T, TEXCLUT := TC, dirty := false }
      read := { s.read with dirty := true } }
  { s1 with clut := wc s1 T TC }

/-- Embedding of `GSClut::Read32`: when the read-side dirty check fires, the
snapshot is renewed (`dirty := false`, `adirty := true`) and the expansion
for (destination color depth × source index depth) is run; otherwise only
the dirty check's own snapshot refresh happens. -/
def Read32 (s : State) (T A : ℕ) : State :=
  let r := ReadState.IsDirty s.read T A
  let s1 : State := { s with read := r.2 }
  if r.1 then
    let s2 : State :=
      { s1 with read := { s1.read with TEX0 := T, TEXA := A, dirty := false, adirty := true } }
    if cpsm T = 0 ∨ cpsm T = 1 then
      if psm T = 19 ∨ psm T = 27 then
        { s2 with buff32 := ReadCLUT_T32_I8 s2.clut s2.buff32 (csa T &&& 15 <<< 4) }
      else if psm T = 20 ∨ psm T = 36 ∨ psm T = 44 then
        let b := ReadCLUT_T32_I4 s2.clut (csa T &&& 15 <<< 4) s2.buff32 0
        { s2 with buff32 := b, buff64 := ExpandCLUT64_T32_I8 b s2.buff64 }
      else s2
    else if cpsm T = 2 ∨ cpsm T = 10 then
      if psm T = 19 ∨ psm T = 27 then
        { s2 with buff32 := Expand16 (fun k => s2.clut (csa T <<< 4 + k)) s2.buff32 256 A }
      else if psm T = 20 ∨ psm T = 36 ∨ psm T = 44 then
        let b := Expand16 (fun k => s2.clut (csa T <<< 4 + k)) s2.buff32 16 A
        { s2 with buff32 := b, buff64 := ExpandCLUT64_T32_I8 b s2.buff64 }
      else s2
    else s2
  else s1

/-- Embedding of `GSClut::InvalidateRange`: the footprint is 4 blocks,
halved for a 16-bpp destination color format and halved again for a 4-bpp
source pixel format; the write side is marked dirty exactly when
`CBP + blocks ≥ start_block` and `CBP ≤ end_block`. -/
def InvalidateRange (s : State) (start_block end_block : ℕ) : State :=
  let blocks1 : ℕ := 4
  let blocks2 := if psmBpp (cpsm s.write.TEX0) = 16 then blocks1 / 2 else blocks1
  let blocks := if psmBpp (psm s.write.TEX0) = 4 then blocks2 / 2 else blocks2
  if start_block ≤ cbp s.write.TEX0 + blocks ∧ cbp s.write.TEX0 ≤ end_block then
    { s with write := { s.write with dirty := true } }
  else s

/-- A concrete state used by the witness theorems. -/
def testState : State where
  CBP0 := 5
  CBP1 := 9
  write := { TEX0 := 0, TEXCLUT := 0, dirty := false }
  read := { TEX0 := 0, TEXA := 0, dirty := false, adirty := false, amin := 0, amax := 0 }
  clut := fun _ => 0
  buff32 := fun _ => 0
  buff64 := fun _ => 0

/-- C2: a non-indexed source pixel format (low 3 bits of `TEX0.PSM` below 3)
makes `WriteTest` return `false` immediately, leaving the whole state — in
particular both base-pointer slots and the write-side snapshot — unchanged,
for every load-mode code. -/
theorem c2_nonindexed_writeTest_noop (s : State) (T TC : ℕ)
    (h : psm T &&& 7 < 3) : WriteTest s T TC = (false, s) := by
  simp [WriteTest, h]

/-- C2 witness: evaluation at `TEX0 = 2^61` (PSM 0, CLD 1, a "reload" mode). -/
theorem c2_witness :
    psm 2305843009213693952 &&& 7 < 3 ∧
      WriteTest testState 2305843009213693952 0 = (false, testState) :=
  ⟨by decide, c2_nonindexed_writeTest_noop testState 2305843009213693952 0 (by decide)⟩

/-- Characterization of the write-side dirty check as a single conditional:
it answers `true` (leaving the snapshot alone) exactly when the masked TEX0
bits or the bit depth differ, or CSM1 with a changed low TEXCLUT word, or
the stored dirty flag is set; otherwise it answers `false` and refreshes
the snapshot. -/
lemma writeIsDirty_spec (s : WriteState) (T TC : ℕ) :
    WriteState.IsDirty s T TC =
      if ((s.TEX0 ^^^ T) &&& 0x1FFFFFE000000000 ≠ 0 ∨
            psmBpp (psm s.TEX0) ≠ psmBpp (psm T)) ∨
          (csm T = 1 ∧ (TC &&& 4294967295) ^^^ (s.TEXCLUT &&& 4294967295) ≠ 0) ∨
          s.dirty = true
      then (true, s) else (false, { s with TEX0 := T, TEXCLUT := TC }) := by
  unfold WriteState.IsDirty
  by_cases hA : (s.TEX0 ^^^ T) &&& 0x1FFFFFE000000000 ≠ 0 ∨
      psmBpp (psm s.TEX0) ≠ psmBpp (psm T) <;>
    by_cases hB : csm T = 1 ∧
        (TC &&& 4294967295) ^^^ (s.TEXCLUT &&& 4294967295) ≠ 0 <;>
      rcases hd : s.dirty <;> simp [hA, hB, hd]

/-- C3 counterexample: with a clean snapshot `TEX0 = 0` and incoming
`TEX0 = 1` (a difference only in the untracked `TBP0` bits), the write-side
dirty check answers "not dirty" — yet it does modify the stored snapshot,
refreshing it to the incoming value.  The claim that the snapshot is "left
unchanged" in the not-dirty case therefore fails. -/
theorem c3_counterexample :
    (WriteState.IsDirty ⟨0, 0, false⟩ 1 0).1 = false ∧
      (WriteState.IsDirty ⟨0, 0, false⟩ 1 0).2.TEX0 ≠ 0 := by
  constructor
  · decide
  · decide

/-- C3 (amended): when the dirty check finds the state not dirty, no reload
is requested and the snapshot's tracked fields are unchanged (the snapshot
itself is refreshed to the incoming registers, which agree with it on every
tracked field and on the bit depth, and the dirty flag is untouched); when
it finds the state dirty, the check itself leaves the snapshot alone and
the caller proceeds with the real load, which sets the snapshot to the
incoming register values. -/
theorem c3_dirty_check_snapshot (wc : State → ℕ → ℕ → Buf) (s : State) (T TC : ℕ) :
    ((WriteState.IsDirty s.write T TC).1 = false →
      (WriteState.IsDirty s.write T TC).2.TEX0 = T ∧
        (s.write.TEX0 ^^^ (WriteState.IsDirty s.write T TC).2.TEX0) &&&
            0x1FFFFFE000000000 = 0 ∧
        psmBpp (psm s.write.TEX0) = psmBpp (psm (WriteState.IsDirty s.write T TC).2.TEX0) ∧
        (WriteState.IsDirty s.write T TC).2.dirty = s.write.dirty) ∧
    ((WriteState.IsDirty s.write T TC).1 = true →
      (WriteState.IsDirty s.write T TC).2 = s.write ∧
        (Write wc s T TC).write.TEX0 = T ∧ (Write wc s T TC).write.TEXCLUT = TC) := by
  rw [writeIsDirty_spec]
  by_cases hc :
      ((s.write.TEX0 ^^^ T) &&& 0x1FFFFFE000000000 ≠ 0 ∨
          psmBpp (psm s.write.TEX0) ≠ psmBpp (psm T)) ∨
        (csm T = 1 ∧
          (TC &&& 4294967295) ^^^ (s.write.TEXCLUT &&& 4294967295) ≠ 0) ∨
        s.write.dirty = true
  · rw [if_pos hc]
    exact ⟨fun h => by simp at h, fun _ => ⟨rfl, rfl, rfl⟩⟩
  · rw [if_neg hc]
    push_neg at hc
    exact ⟨fun _ => ⟨rfl, hc.1.1, hc.1.2, rfl⟩, fun h => by simp at h⟩

/-- C3 witness: evaluation of the amended statement at the concrete
snapshot 0 with incoming `TEX0 = 1`. -/
theorem c3_witness :
    (WriteState.IsDirty testState.write 1 0).1 = false ∧
      (WriteState.IsDirty testState.write 1 0).2.TEX0 = 1 := by
  have h := (c3_dirty_check_snapshot (fun s _ _ => s.clut) testState 1 0).1
  exact ⟨by decide, (h (by decide)).1⟩

/-- C6: for an indexed pixel format, load-mode codes 6 and 7 make
`WriteTest` return `false` with the state untouched, whatever the incoming
registers and the stored snapshot are. -/
theorem c6_cld67_never_reload (s : State) (T TC : ℕ)
    (hpsm : 3 ≤ psm T &&& 7) (h : cld T = 6 ∨ cld T = 7) :
    WriteTest s T TC = (false, s) := by
  rcases h with h | h <;> simp [WriteTest, h, Nat.not_lt.2 hpsm]

/-- C6 witness: evaluation at `TEX0` with PSM 19 (8-bit indexed) and CLD 6. -/
theorem c6_witness :
    3 ≤ psm 13835058055302086656 &&& 7 ∧
      WriteTest testState 13835058055302086656 0 = (false, testState) :=
  ⟨by decide,
    c6_cld67_never_reload testState 13835058055302086656 0 (by decide) (Or.inl (by decide))⟩

/-- C7: for an indexed pixel format, load-mode 4 (resp. 5) skips the reload
entirely — returning `false` with the state untouched — when the incoming
base pointer equals stored slot A (resp. B); when it differs, the slot is
updated to the incoming pointer and the verdict is exactly the dirty
check's. -/
theorem c7_cld45_slot_check (s : State) (T TC : ℕ) (hpsm : 3 ≤ psm T &&& 7) :
    (cld T = 4 →
      (s.CBP0 = cbp T → WriteTest s T TC = (false, s)) ∧
      (s.CBP0 ≠ cbp T →
        WriteTest s T TC =
          ((WriteState.IsDirty s.write T TC).1,
            { s with CBP0 := cbp T, write := (WriteState.IsDirty s.write T TC).2 }))) ∧
    (cld T = 5 →
      (s.CBP1 = cbp T → WriteTest s T TC = (false, s)) ∧
      (s.CBP1 ≠ cbp T →
        WriteTest s T TC =
          ((WriteState.IsDirty s.write T TC).1,
            { s with CBP1 := cbp T, write := (WriteState.IsDirty s.write T TC).2 }))) := by
  constructor <;> intro h <;> constructor <;> intro h2 <;>
    simp [WriteTest, wtDirty, h, h2, Nat.not_lt.2 hpsm]

/-- C7 witness: evaluation at `TEX0` with PSM 19 and CLD 4, where the
incoming base pointer 0 differs from stored slot A = 5: the slot is updated
and the dirty check decides. -/
theorem c7_witness :
    3 ≤ psm 9223372036874698752 &&& 7 ∧ cld 9223372036874698752 = 4 ∧
      testState.CBP0 ≠ cbp 9223372036874698752 ∧
      WriteTest testState 9223372036874698752 0 =
        ((WriteState.IsDirty testState.write 9223372036874698752 0).1,
          { testState with
            CBP0 := cbp 9223372036874698752
            write := (WriteState.IsDirty testState.write 9223372036874698752 0).2 }) := by
  refine ⟨by decide, by decide, by decide, ?_⟩
  exact (((c7_cld45_slot_check testState 9223372036874698752 0 (by decide)).1 (by decide)).2
    (by decide))

/-- C8: the invalidate-range entry point reports the write side dirty
exactly when it was already dirty or the tracked base pointer's footprint
(4 blocks, halved for a 16-bpp destination color format, halved again for a
4-bpp source pixel format) meets the inclusive block range; with no overlap
the state — in particular the dirty flag — is returned unchanged. -/
theorem c8_invalidate_range_exact (s : State) (sb eb : ℕ) :
    ((InvalidateRange s sb eb).write.dirty = true ↔
      s.write.dirty = true ∨
        (sb ≤ cbp s.write.TEX0 +
            (if psmBpp (cpsm s.write.TEX0) = 16 then
              if psmBpp (psm s.write.TEX0) = 4 then 1 else 2
             else if psmBpp (psm s.write.TEX0) = 4 then 2 else 4) ∧
          cbp s.write.TEX0 ≤ eb)) ∧
    (¬(sb ≤ cbp s.write.TEX0 +
          (if psmBpp (cpsm s.write.TEX0) = 16 then
            if psmBpp (psm s.write.TEX0) = 4 then 1 else 2
           else if psmBpp (psm s.write.TEX0) = 4 then 2 else 4) ∧
        cbp s.write.TEX0 ≤ eb) →
      InvalidateRange s sb eb = s) := by
  have key : InvalidateRange s sb eb =
      if sb ≤ cbp s.write.TEX0 +
            (if psmBpp (cpsm s.write.TEX0) = 16 then
              if psmBpp (psm s.write.TEX0) = 4 then 1 else 2
             else if psmBpp (psm s.write.TEX0) = 4 then 2 else 4) ∧
          cbp s.write.TEX0 ≤ eb
      then { s with write := { s.write with dirty := true } } else s := by
    unfold InvalidateRange
    by_cases h16 : psmBpp (cpsm s.write.TEX0) = 16 <;>
      by_cases h4 : psmBpp (psm s.write.TEX0) = 4 <;>
        simp [h16, h4]
  rw [key]
  refine ⟨?_, fun h => if_neg h⟩
  split_ifs <;> simp_all

/-- C8 witness: a range strictly beyond the footprint of base pointer 0
leaves the clean state untouched. -/
theorem c8_witness :
    (InvalidateRange testState 100 200).write.dirty = true ↔
      testState.write.dirty = true ∨
        (100 ≤ cbp testState.write.TEX0 +
            (if psmBpp (cpsm testState.write.TEX0) = 16 then
              if psmBpp (psm testState.write.TEX0) = 4 then 1 else 2
             else if psmBpp (psm testState.write.TEX0) = 4 then 2 else 4) ∧
          cbp testState.write.TEX0 ≤ 200) :=
  (c8_invalidate_range_exact testState 100 200).1

/-- C9: performing the real load sets the write-side snapshot to the new
register values, clears the write-side dirty flag and sets the read-side
dirty flag, for every dispatch-table routine `wc`. -/
theorem c9_write_effects (wc : State → ℕ → ℕ → Buf) (s : State) (T TC : ℕ) :
    (Write wc s T TC).write.TEX0 = T ∧ (Write wc s T TC).write.TEXCLUT = TC ∧
      (Write wc s T TC).write.dirty = false ∧ (Write wc s T TC).read.dirty = true :=
  ⟨rfl, rfl, rfl, rfl⟩

/-- C10: with a 32-bit destination color format (`CPSM = PSMCT32 = 0`), a
clean read side and a texture-format register unchanged in the tracked mask
and bit depth, the read-side dirty check ignores the alpha-expansion
register entirely: whatever `TEXA` is presented, no dirtiness is reported,
`Read32` touches neither expanded buffer, and the read side stays clean. -/
theorem c10_texa_ignored_32bit (s : State) (T A : ℕ)
    (hd : s.read.dirty = false)
    (hmask : (s.read.TEX0 ^^^ T) &&& 0x1FFFFFE000000000 = 0)
    (hbpp : psmBpp (psm s.read.TEX0) = psmBpp (psm T))
    (hcpsm : cpsm T = 0) :
    (ReadState.IsDirty s.read T A).1 = false ∧
      (Read32 s T A).buff32 = s.buff32 ∧
      (Read32 s T A).buff64 = s.buff64 ∧
      (Read32 s T A).read.dirty = false := by
  have h1 : ReadState.IsDirty s.read T A = (false, { s.read with TEX0 := T, TEXA := A }) := by
    simp [ReadState.IsDirty, hmask, hbpp, hcpsm, hd]
  refine ⟨by simp [h1], ?_, ?_, ?_⟩ <;> simp [Read32, h1, hd]

/-- Value of one read strip: `ReadCLUT_T32_I4` writes, at destination word
`dof + m` (`m < 16`), the pair of palette halves `clut[co+m]` (low) and
`clut[co+256+m]` (high) recombined into one 32-bit word. -/
lemma readI4_val (clut dst : Buf) (co dof m : ℕ) (hm : m < 16) :
    ReadCLUT_T32_I4 clut co dst dof (dof + m) =
      clut (co + m) % 65536 + 65536 * (clut (co + 256 + m) % 65536) := by
  interval_cases m <;>
    simp [ReadCLUT_T32_I4, store32, loadC, upl16, uph16, Nat.add_le_add_iff_left,
      Nat.add_lt_add_iff_left, Nat.add_sub_add_left, Nat.add_sub_cancel_left, Nat.add_assoc]

/-- Frame property of one read strip: destination words outside
`[dof, dof+16)` are untouched. -/
lemma readI4_frame (clut dst : Buf) (co dof p : ℕ) (hp : p < dof ∨ dof + 16 ≤ p) :
    ReadCLUT_T32_I4 clut co dst dof p = dst p := by
  simp only [ReadCLUT_T32_I4, store32]
  split_ifs <;> first | rfl | omega

/-- Closed form of the read loop of `ReadCLUT_T32_I8` after `k ≤ 16` strips:
destination word `n < 16k` holds the recombined pair at the clamped source
entry `min (16⌊n/16⌋ + offset) 240 + n mod 16`. -/
lemma readI8_cf (clut dst : Buf) (offset k n : ℕ) (hk : k ≤ 16) (hn : n < 16 * k) :
    ((List.range k).foldl
        (fun d i => ReadCLUT_T32_I4 clut (min (16 * i + offset) 240) d (16 * i)) dst) n =
      clut (min (16 * (n / 16) + offset) 240 + n % 16) % 65536 +
        65536 * (clut (min (16 * (n / 16) + offset) 240 + 256 + n % 16) % 65536) := by
  induction k generalizing dst with
  | zero => omega
  | succ k ih =>
    rw [List.range_succ, List.foldl_append, List.foldl_cons, List.foldl_nil]
    by_cases hn2 : n < 16 * k
    · rw [readI4_frame _ _ _ _ _ (Or.inl hn2)]
      exact ih dst (by omega) hn2
    · have h1 : n / 16 = k := by omega
      have h2 : n % 16 = n - 16 * k := by omega
      rw [h1, h2]
      have hv := readI4_val clut
        ((List.range k).foldl
          (fun d i => ReadCLUT_T32_I4 clut (min (16 * i + offset) 240) d (16 * i)) dst)
        (min (16 * k + offset) 240) (16 * k) (n - 16 * k) (by omega)
      rw [show 16 * k + (n - 16 * k) = n from by omega] at hv
      exact hv

/-- C4: during the 8-bit-index 32-bit expansion, a strip whose source
position `16⌊n/16⌋ + offset` would exceed entry 240 is clamped to entry 240
— the produced word comes from entries `240 + (n mod 16)` (low half) and
`496 + (n mod 16)` (high half), never from a wrapped-around position near
entry 0. -/
theorem c4_column_select_clamps (clut dst : Buf) (offset n : ℕ) (hn : n < 256)
    (hclamp : 240 < 16 * (n / 16) + offset) :
    ReadCLUT_T32_I8 clut dst offset n =
      clut (240 + n % 16) % 65536 + 65536 * (clut (496 + n % 16) % 65536) := by
  have h := readI8_cf clut dst offset 16 n (le_refl 16) (by omega)
  rw [ReadCLUT_T32_I8, h]
  have hmin : min (16 * (n / 16) + offset) 240 = 240 := by omega
  rw [hmin]

/-- C4 witness: with column-select offset 240, destination word 16 reads the
clamped entries 240 and 496 (it does not wrap to entry 0). -/
theorem c4_witness :
    240 < 16 * (16 / 16) + 240 ∧
      ReadCLUT_T32_I8 (fun k => k) (fun _ => 0) 240 16 =
        (fun k => k) (240 + 16 % 16) % 65536 +
          65536 * ((fun k : ℕ => k) (496 + 16 % 16) % 65536) :=
  ⟨by norm_num, c4_column_select_clamps (fun k => k) (fun _ => 0) 240 16 (by norm_num) (by norm_num)⟩

set_option maxRecDepth 4000 in
/-- Value of one write strip, low halves: `WriteCLUT_T32_I4_CSM1` stores at
entry `co + m` (`m < 16`) the low half of the source word
`src[so + columnOrder32 m]`. -/
lemma writeI4_val_low (src clut : Buf) (so co m : ℕ) (hm : m < 16) :
    WriteCLUT_T32_I4_CSM1 src so clut co (co + m) = src (so + columnOrder32 m) % 65536 := by
  interval_cases m <;>
    simp [WriteCLUT_T32_I4_CSM1, store16, upl16, uph16, upl32, uph32, loadV32, columnOrder32,
      Nat.add_le_add_iff_left, Nat.add_lt_add_iff_left, Nat.add_sub_add_left,
      Nat.add_sub_cancel_left, Nat.add_assoc]

set_option maxRecDepth 4000 in
/-- Value of one write strip, high halves: `WriteCLUT_T32_I4_CSM1` stores at
entry `co + 256 + m` (`m < 16`) the high half of the source word
`src[so + columnOrder32 m]`. -/
lemma writeI4_val_high (src clut : Buf) (so co m : ℕ) (hm : m < 16) :
    WriteCLUT_T32_I4_CSM1 src so clut co (co + 256 + m) =
      src (so + columnOrder32 m) / 65536 % 65536 := by
  interval_cases m <;>
    simp [WriteCLUT_T32_I4_CSM1, store16, upl16, uph16, upl32, uph32, loadV32, columnOrder32,
      Nat.add_le_add_iff_left, Nat.add_lt_add_iff_left, Nat.add_sub_add_left,
      Nat.add_sub_cancel_left, Nat.add_assoc]

set_option maxRecDepth 4000 in
/-- Frame property of one write strip: entries outside
`[co, co+16) ∪ [co+256, co+272)` are untouched. -/
lemma writeI4_frame (src clut : Buf) (so co p : ℕ)
    (hp : p < co ∨ (co + 16 ≤ p ∧ p < co + 256) ∨ co + 272 ≤ p) :
    WriteCLUT_T32_I4_CSM1 src so clut co p = clut p := by
  simp only [WriteCLUT_T32_I4_CSM1, store16]
  split_ifs <;> first | rfl | omega

/-- Closed form of the write loop of `WriteCLUT_T32_I8_CSM1` (full load,
`offset = 0`) after `k ≤ 16` strips: entry `n < 16k` holds the low half and
entry `256 + n` the high half of the source word `src[csm1SrcIndex n]`. -/
lemma writeI8_cf (src clut : Buf) (k n : ℕ) (hk : k ≤ 16) (hn : n < 16 * k) :
    ((List.range k).foldl
        (fun c i =>
          WriteCLUT_T32_I4_CSM1 src
            (clutTableT32I8 (16 * i &&& 112) ||| (16 * i &&& 128)) c
            (16 * i)) clut) n = src (csm1SrcIndex n) % 65536 ∧
    ((List.range k).foldl
        (fun c i =>
          WriteCLUT_T32_I4_CSM1 src
            (clutTableT32I8 (16 * i &&& 112) ||| (16 * i &&& 128)) c
            (16 * i)) clut) (256 + n) = src (csm1SrcIndex n) / 65536 % 65536 := by
  induction k generalizing clut with
  | zero => omega
  | succ k ih =>
    rw [List.range_succ, List.foldl_append, List.foldl_cons, List.foldl_nil]
    by_cases hn2 : n < 16 * k
    · constructor
      · rw [writeI4_frame _ _ _ _ _ (Or.inl hn2)]
        exact (ih clut (by omega) hn2).1
      · rw [writeI4_frame _ _ _ _ _ (Or.inr (Or.inl (by omega)))]
        exact (ih clut (by omega) hn2).2
    · have h1 : n / 16 = k := by omega
      have h2 : n % 16 = n - 16 * k := by omega
      have hE : csm1SrcIndex n =
          (clutTableT32I8 (16 * k &&& 112) ||| (16 * k &&& 128)) +
            columnOrder32 (n - 16 * k) := by
        rw [csm1SrcIndex, h1, h2]
      rw [hE]
      constructor
      · have hv := writeI4_val_low src
          ((List.range k).foldl
            (fun c i =>
              WriteCLUT_T32_I4_CSM1 src
                (clutTableT32I8 (16 * i &&& 112) ||| (16 * i &&& 128)) c
                (16 * i)) clut)
          (clutTableT32I8 (16 * k &&& 112) ||| (16 * k &&& 128))
          (16 * k) (n - 16 * k) (by omega)
        rw [show 16 * k + (n - 16 * k) = n from by omega] at hv
        exact hv
      · have hv := writeI4_val_high src
          ((List.range k).foldl
            (fun c i =>
              WriteCLUT_T32_I4_CSM1 src
                (clutTableT32I8 (16 * i &&& 112) ||| (16 * i &&& 128)) c
                (16 * i)) clut)
          (clutTableT32I8 (16 * k &&& 112) ||| (16 * k &&& 128))
          (16 * k) (n - 16 * k) (by omega)
        rw [show 16 * k + 256 + (n - 16 * k) = 256 + n from by omega] at hv
        exact hv

set_option maxRecDepth 8000 in
/-- C1: loading any 256-entry source palette through the 8-bit-index CSM1
table-load path with column-select 0 and then expanding it through the
32-bit read path yields, at every logical entry `n`, exactly the source
word `src[csm1SrcIndex n]`; the index map `csm1SrcIndex` is a permutation
of the 256 entries (its values stay below 256 and do not repeat), so the
load's interleave and the expansion's de-interleave compose to an exact
entry-for-entry inverse pair that reproduces the logical palette order. -/
theorem c1_roundtrip (src clut0 dst0 : Buf) (hsrc : ∀ k, src k < 4294967296) :
    (∀ n, n < 256 →
      ReadCLUT_T32_I8 (WriteCLUT_T32_I8_CSM1 src clut0 0) dst0 0 n = src (csm1SrcIndex n)) ∧
    (∀ n, n < 256 → csm1SrcIndex n < 256) ∧
    ((List.range 256).map csm1SrcIndex).Nodup := by
  refine ⟨?_, by decide, by decide⟩
  intro n hn
  rw [ReadCLUT_T32_I8, WriteCLUT_T32_I8_CSM1, List.drop_zero]
  have h := readI8_cf (((List.range 16)).foldl
      (fun c i =>
        WriteCLUT_T32_I4_CSM1 src
          (clutTableT32I8 (16 * i &&& 112) ||| (16 * i &&& 128)) c
          (16 * i)) clut0) dst0 0 16 n (le_refl 16) (by omega)
  rw [h]
  have hmin : min (16 * (n / 16) + 0) 240 = 16 * (n / 16) := by omega
  rw [hmin]
  have e1 : 16 * (n / 16) + n % 16 = n := by omega
  have e2 : 16 * (n / 16) + 256 + n % 16 = 256 + n := by omega
  rw [e1, e2]
  have hw := writeI8_cf src clut0 16 n (le_refl 16) (by omega)
  rw [hw.1, hw.2]
  have := hsrc (csm1SrcIndex n)
  omega

/-- C1 witness: evaluation at the source `k % 2^32 ↦ k`, entry 7 (the
round-trip returns source word `csm1SrcIndex 7 = 13`). -/
theorem c1_witness :
    ReadCLUT_T32_I8
        (WriteCLUT_T32_I8_CSM1 (fun k => k % 4294967296) (fun _ => 0) 0) (fun _ => 0) 0 7 =
      (fun k => k % 4294967296) (csm1SrcIndex 7) :=
  (c1_roundtrip (fun k => k % 4294967296) (fun _ => 0) (fun _ => 0)
    (fun k => Nat.mod_lt _ (by norm_num))).1 7 (by norm_num)

/-- Disjoint bitwise or: when `c` lies below bit `k`, or-ing it with a
multiple of `2^k` is plain addition. -/
lemma lor_two_pow_mul (c t k : ℕ) (hc : c < 2 ^ k) : c ||| 2 ^ k * t = c + 2 ^ k * t := by
  apply Nat.eq_of_testBit_eq
  intro i
  have hpos : 0 < 2 ^ k := Nat.pos_pow_of_pos k (by norm_num)
  have h0 : ∀ j, Nat.testBit (2 ^ k * t) j =
      if j < k then false else Nat.testBit t (j - k) := by
    intro j
    have h := Nat.testBit_mul_pow_two_add t hpos j
    simpa [Nat.zero_testBit] using h
  have h1 : ∀ j, Nat.testBit (c + 2 ^ k * t) j =
      if j < k then Nat.testBit c j else Nat.testBit t (j - k) := by
    intro j
    have h := Nat.testBit_mul_pow_two_add t hc j
    rw [Nat.add_comm (2 ^ k * t) c] at h
    exact h
  rw [Nat.testBit_lor, h0 i, h1 i]
  by_cases h : i < k
  · simp [h]
  · have hci : Nat.testBit c i = false :=
      Nat.testBit_lt_two_pow (lt_of_lt_of_le hc (Nat.pow_le_pow_right (by norm_num) (by omega)))
    simp [h, hci]

/-- Specialization of the disjoint-or lemma to byte boundary 256. -/
lemma lor256 (c t : ℕ) (hc : c < 256) : c ||| 256 * t = c + 256 * t := by
  have h := lor_two_pow_mul c t 8 (by norm_num [hc])
  norm_num at h
  exact h

/-- Bitwise or of two 16-bit values is a 16-bit value. -/
lemma lor_lt_65536 (a b : ℕ) (ha : a < 65536) (hb : b < 65536) : a ||| b < 65536 := by
  have h := Nat.or_lt_two_pow (x := a) (y := b) (n := 16)
    (lt_of_lt_of_le ha (by norm_num)) (lt_of_lt_of_le hb (by norm_num))
  exact lt_of_lt_of_le h (by norm_num)

/-- Alpha byte of one 32-bit word assembled by the `Expand16` body without
AEM: for a vector `q` whose lane pair `2j`, `2j+1` holds the 16-bit entry
`x`, the recombined word's top byte is `a0v` when the transparency flag
(bit 15 of `x`) is clear and `a1v` when it is set. -/
lemma expandLane_alpha (q : V) (j x a0v a1v : ℕ)
    (hq0 : q (2 * j) = x) (hq1 : q (2 * j + 1) = x)
    (hx : x < 65536) (h0 : a0v ≤ 255) (h1 : a1v ≤ 255) :
    (vor (vor (vor (shl32 (vand q (bcast32 31)) 3)
            (shl32 (vand q (bcast32 992)) 6))
          (shl32 (vand q (bcast32 31744)) 9))
        (blend8 (bcast32 (a0v <<< 24)) (bcast32 (a1v <<< 24))
          (sra16 q 15)) (2 * j) +
      65536 *
        vor (vor (vor (shl32 (vand q (bcast32 31)) 3)
            (shl32 (vand q (bcast32 992)) 6))
          (shl32 (vand q (bcast32 31744)) 9))
        (blend8 (bcast32 (a0v <<< 24)) (bcast32 (a1v <<< 24))
          (sra16 q 15)) (2 * j + 1)) /
      16777216 = if x < 32768 then a0v else a1v := by
  have p0 : 2 * j % 2 = 0 := Nat.mul_mod_right 2 j
  have p1 : (2 * j + 1) % 2 = 1 := by omega
  have q0 : 2 * j / 2 = j := by omega
  have q1 : (2 * j + 1) / 2 = j := by omega
  have hx' : x % 65536 = x := Nat.mod_eq_of_lt hx
  simp only [vor, vand, shl32, sra16, blend8, bcast32,
    p0, p1, q0, q1, hq0, hq1, hx', Nat.shiftLeft_eq]
  norm_num
  have hb1 : x &&& 31 ≤ 31 := Nat.and_le_right
  have hb2 : x &&& 992 ≤ 992 := Nat.and_le_right
  have hb3 : x &&& 31744 ≤ 31744 := Nat.and_le_right
  have hL : (x &&& 31) * 8 % 65536 ||| (x &&& 992) * 64 % 65536 |||
      (x &&& 31744) * 512 % 65536 < 65536 :=
    lor_lt_65536 _ _ (lor_lt_65536 _ _ (by omega) (by omega)) (by omega)
  have z1 : (x &&& 31) * 8 % 4294967296 / 65536 = 0 := by omega
  have z2 : (x &&& 992) * 64 % 4294967296 / 65536 = 0 := by omega
  have z3 : (x &&& 31744) * 512 % 4294967296 / 65536 < 256 := by omega
  rcases Nat.lt_or_ge x 32768 with hlt | hge
  · have d0 : x / 32768 = 0 := by omega
    simp only [d0]
    norm_num
    have e1 : a0v * 16777216 % 256 + 256 * (a0v * 16777216 % 65536 / 256 % 256) = 0 := by omega
    have e2 : a0v * 16777216 / 65536 % 256 + 256 * (a0v * 16777216 / 65536 % 65536 / 256 % 256) =
        256 * a0v := by omega
    rw [e1, e2, z1, z2]
    simp only [Nat.zero_or, Nat.or_zero]
    rw [lor256 _ _ z3]
    rw [if_pos hlt]
    omega
  · have d1 : x / 32768 = 1 := by omega
    simp only [d1]
    norm_num
    have e1 : a1v * 16777216 % 256 + 256 * (a1v * 16777216 % 65536 / 256 % 256) = 0 := by omega
    have e2 : a1v * 16777216 / 65536 % 256 + 256 * (a1v * 16777216 / 65536 % 65536 / 256 % 256) =
        256 * a1v := by omega
    rw [e1, e2, z1, z2]
    simp only [Nat.zero_or, Nat.or_zero]
    rw [lor256 _ _ z3]
    rw [if_neg (by omega)]
    omega

/-- Masking a 16-bit value with `0xFFFF` is the identity. -/
lemma and_65535 (v : ℕ) (hv : v < 65536) : v &&& 65535 = v := by
  apply Nat.eq_of_testBit_eq
  intro i
  rw [Nat.testBit_land]
  by_cases hi : i < 16
  · have h : Nat.testBit 65535 i = true := by
      have h2 := Nat.testBit_two_pow_sub_one 16 i
      norm_num at h2
      rw [h2]
      simpa using hi
    simp [h]
  · have hv' : v < 2 ^ 16 := lt_of_lt_of_le hv (by norm_num)
    have h : Nat.testBit v i = false :=
      Nat.testBit_lt_two_pow (lt_of_lt_of_le hv' (Nat.pow_le_pow_right (by norm_num) (by omega)))
    simp [h]

/-- Alpha byte of one 32-bit word assembled by the `Expand16` body with AEM:
as without AEM, except that an entry whose raw 16-bit value is exactly zero
is forced to alpha 0 by the `andnot (c == 0)` step. -/
lemma expandLane_alpha_aem (q : V) (j x a0v a1v : ℕ)
    (hq0 : q (2 * j) = x) (hq1 : q (2 * j + 1) = x)
    (hx : x < 65536) (h0 : a0v ≤ 255) (h1 : a1v ≤ 255) :
    (vor (vor (vor (shl32 (vand q (bcast32 31)) 3)
            (shl32 (vand q (bcast32 992)) 6))
          (shl32 (vand q (bcast32 31744)) 9))
        (vandnot
          (blend8 (bcast32 (a0v <<< 24)) (bcast32 (a1v <<< 24))
            (sra16 q 15)) (veq32 q vzero)) (2 * j) +
      65536 *
        vor (vor (vor (shl32 (vand q (bcast32 31)) 3)
            (shl32 (vand q (bcast32 992)) 6))
          (shl32 (vand q (bcast32 31744)) 9))
        (vandnot
          (blend8 (bcast32 (a0v <<< 24)) (bcast32 (a1v <<< 24))
            (sra16 q 15)) (veq32 q vzero)) (2 * j + 1)) /
      16777216 =
      if x = 0 then 0 else if x < 32768 then a0v else a1v := by
  have p0 : 2 * j % 2 = 0 := Nat.mul_mod_right 2 j
  have p1 : (2 * j + 1) % 2 = 1 := by omega
  have q0 : 2 * j / 2 = j := by omega
  have q1 : (2 * j + 1) / 2 = j := by omega
  have hx' : x % 65536 = x := Nat.mod_eq_of_lt hx
  simp only [vor, vand, shl32, sra16, blend8, bcast32,
    vandnot, veq32, vzero, p0, p1, q0, q1, hq0, hq1, hx', Nat.shiftLeft_eq]
  norm_num
  by_cases hz : x = 0
  · subst hz
    norm_num
  · rw [if_neg hz]
    simp only [if_neg hz]
    norm_num
    have hb1 : x &&& 31 ≤ 31 := Nat.and_le_right
    have hb2 : x &&& 992 ≤ 992 := Nat.and_le_right
    have hb3 : x &&& 31744 ≤ 31744 := Nat.and_le_right
    have hL : (x &&& 31) * 8 % 65536 ||| (x &&& 992) * 64 % 65536 |||
        (x &&& 31744) * 512 % 65536 < 65536 :=
      lor_lt_65536 _ _ (lor_lt_65536 _ _ (by omega) (by omega)) (by omega)
    have z1 : (x &&& 31) * 8 % 4294967296 / 65536 = 0 := by omega
    have z2 : (x &&& 992) * 64 % 4294967296 / 65536 = 0 := by omega
    have z3 : (x &&& 31744) * 512 % 4294967296 / 65536 < 256 := by omega
    rcases Nat.lt_or_ge x 32768 with hlt | hge
    · have d0 : x / 32768 = 0 := by omega
      simp only [d0]
      norm_num
      have e1 : a0v * 16777216 % 256 + 256 * (a0v * 16777216 % 65536 / 256 % 256) = 0 := by omega
      have e2 : a0v * 16777216 / 65536 % 256 +
          256 * (a0v * 16777216 / 65536 % 65536 / 256 % 256) = 256 * a0v := by omega
      rw [e1, e2, z1, z2]
      rw [Nat.zero_and, and_65535 _ (by omega)]
      simp only [Nat.zero_or, Nat.or_zero]
      rw [lor256 _ _ z3]
      rw [if_pos hlt]
      omega
    · have d1 : x / 32768 = 1 := by omega
      simp only [d1]
      norm_num
      have e1 : a1v * 16777216 % 256 + 256 * (a1v * 16777216 % 65536 / 256 % 256) = 0 := by omega
      have e2 : a1v * 16777216 / 65536 % 256 +
          256 * (a1v * 16777216 / 65536 % 65536 / 256 % 256) = 256 * a1v := by omega
      rw [e1, e2, z1, z2]
      rw [Nat.zero_and, and_65535 _ (by omega)]
      simp only [Nat.zero_or, Nat.or_zero]
      rw [lor256 _ _ z3]
      rw [if_neg (by omega)]
      omega


/-- Frame property of one `Expand16` iteration: destination words outside
`[8k, 8k+8)` are untouched. -/
lemma expand_step_frame (d : Buf) (u v : V) (k p : ℕ) (hp : p < 8 * k) :
    store32 (store32 d (4 * (k * 2)) u) (4 * (k * 2 + 1)) v p = d p := by
  simp only [store32]
  split_ifs <;> first | rfl | omega

/-- Value of the low vector store of one `Expand16` iteration. -/
lemma store32x2_lo (d : Buf) (u v : V) (k n : ℕ) (h1 : 4 * (k * 2) ≤ n)
    (h2 : n < 4 * (k * 2) + 4) :
    store32 (store32 d (4 * (k * 2)) u) (4 * (k * 2 + 1)) v n =
      u (2 * (n - 4 * (k * 2))) + 65536 * u (2 * (n - 4 * (k * 2)) + 1) := by
  simp only [store32]
  rw [if_neg (by omega), if_pos ⟨h1, h2⟩]

/-- Value of the high vector store of one `Expand16` iteration. -/
lemma store32x2_hi (d : Buf) (u v : V) (k n : ℕ) (h1 : 4 * (k * 2 + 1) ≤ n)
    (h2 : n < 4 * (k * 2 + 1) + 4) :
    store32 (store32 d (4 * (k * 2)) u) (4 * (k * 2 + 1)) v n =
      v (2 * (n - 4 * (k * 2 + 1))) + 65536 * v (2 * (n - 4 * (k * 2 + 1)) + 1) := by
  simp only [store32]
  rw [if_pos ⟨h1, h2⟩]

/-- The `cl = c.upl16(c)` lane pair feeding destination word `n` holds the
16-bit source entry `src[n]`. -/
lemma upl16_pair_lo (src : Buf) (k n : ℕ) (h1 : 4 * (k * 2) ≤ n) (h2 : n < 4 * (k * 2) + 4) :
    upl16 (loadC src (8 * k)) (loadC src (8 * k)) (2 * (n - 4 * (k * 2))) = src n % 65536 ∧
    upl16 (loadC src (8 * k)) (loadC src (8 * k)) (2 * (n - 4 * (k * 2)) + 1) =
      src n % 65536 := by
  constructor <;>
    · simp [upl16, loadC, Nat.mul_mod_right, Nat.mul_add_mod, Nat.mul_div_cancel_left,
        Nat.mul_add_div]
      rw [show (8 : ℕ) * k + (n - 4 * (k * 2)) = n from by omega]

/-- The `ch = c.uph16(c)` lane pair feeding destination word `n` holds the
16-bit source entry `src[n]`. -/
lemma uph16_pair_hi (src : Buf) (k n : ℕ) (h1 : 4 * (k * 2 + 1) ≤ n)
    (h2 : n < 4 * (k * 2 + 1) + 4) :
    uph16 (loadC src (8 * k)) (loadC src (8 * k)) (2 * (n - 4 * (k * 2 + 1))) =
      src n % 65536 ∧
    uph16 (loadC src (8 * k)) (loadC src (8 * k)) (2 * (n - 4 * (k * 2 + 1)) + 1) =
      src n % 65536 := by
  constructor <;>
    · simp [uph16, loadC, Nat.mul_mod_right, Nat.mul_add_mod, Nat.mul_div_cancel_left,
        Nat.mul_add_div]
      rw [show (8 : ℕ) * k + (n - 4 * (k * 2 + 1) + 4) = n from by omega]

/-- Closed form of the `Expand16` loop without AEM: the alpha byte of
destination word `n < 8k` follows the TA0/TA1 transparency-flag rule for
the source entry `src[n]`. -/
lemma expand16_cf_noaem (src dst : Buf) (A k n : ℕ) (hn : n < 8 * k) :
    ((List.range k).foldl
        (fun d i =>
          store32
            (store32 d (4 * (i * 2))
              (vor (vor (vor
                    (shl32 (vand (upl16 (loadC src (8 * i)) (loadC src (8 * i))) (bcast32 31)) 3)
                    (shl32 (vand (upl16 (loadC src (8 * i)) (loadC src (8 * i))) (bcast32 992)) 6))
                  (shl32 (vand (upl16 (loadC src (8 * i)) (loadC src (8 * i))) (bcast32 31744)) 9))
                (blend8 (bcast32 (ta0 A <<< 24)) (bcast32 (ta1 A <<< 24))
                  (sra16 (upl16 (loadC src (8 * i)) (loadC src (8 * i))) 15))))
            (4 * (i * 2 + 1))
            (vor (vor (vor
                  (shl32 (vand (uph16 (loadC src (8 * i)) (loadC src (8 * i))) (bcast32 31)) 3)
                  (shl32 (vand (uph16 (loadC src (8 * i)) (loadC src (8 * i))) (bcast32 992)) 6))
                (shl32 (vand (uph16 (loadC src (8 * i)) (loadC src (8 * i))) (bcast32 31744)) 9))
              (blend8 (bcast32 (ta0 A <<< 24)) (bcast32 (ta1 A <<< 24))
                (sra16 (uph16 (loadC src (8 * i)) (loadC src (8 * i))) 15)))) dst) n /
      16777216 = if src n % 65536 < 32768 then ta0 A else ta1 A := by
  induction k generalizing dst with
  | zero => omega
  | succ k ih =>
    rw [List.range_succ, List.foldl_append, List.foldl_cons, List.foldl_nil]
    by_cases h2 : n < 8 * k
    · rw [expand_step_frame _ _ _ _ _ (by omega)]
      exact ih dst h2
    · rcases Nat.lt_or_ge n (4 * (k * 2) + 4) with hc | hc
      · rw [store32x2_lo _ _ _ _ _ (by omega) (by omega)]
        have hq := upl16_pair_lo src k n (by omega) (by omega)
        exact expandLane_alpha _ _ _ _ _ hq.1 hq.2 (Nat.mod_lt _ (by norm_num))
          Nat.and_le_right Nat.and_le_right
      · rw [store32x2_hi _ _ _ _ _ (by omega) (by omega)]
        have hq := uph16_pair_hi src k n (by omega) (by omega)
        exact expandLane_alpha _ _ _ _ _ hq.1 hq.2 (Nat.mod_lt _ (by norm_num))
          Nat.and_le_right Nat.and_le_right



/-- Closed form of the `Expand16` loop with AEM: as without AEM, except
that a raw zero entry receives alpha 0. -/
lemma expand16_cf_aem (src dst : Buf) (A k n : ℕ) (hn : n < 8 * k) :
    ((List.range k).foldl
        (fun d i =>
          store32
            (store32 d (4 * (i * 2))
              (vor (vor (vor
                    (shl32 (vand (upl16 (loadC src (8 * i)) (loadC src (8 * i))) (bcast32 31)) 3)
                    (shl32 (vand (upl16 (loadC src (8 * i)) (loadC src (8 * i))) (bcast32 992)) 6))
                  (shl32 (vand (upl16 (loadC src (8 * i)) (loadC src (8 * i))) (bcast32 31744)) 9))
                (vandnot
                  (blend8 (bcast32 (ta0 A <<< 24)) (bcast32 (ta1 A <<< 24))
                    (sra16 (upl16 (loadC src (8 * i)) (loadC src (8 * i))) 15))
                  (veq32 (upl16 (loadC src (8 * i)) (loadC src (8 * i))) vzero))))
            (4 * (i * 2 + 1))
            (vor (vor (vor
                  (shl32 (vand (uph16 (loadC src (8 * i)) (loadC src (8 * i))) (bcast32 31)) 3)
                  (shl32 (vand (uph16 (loadC src (8 * i)) (loadC src (8 * i))) (bcast32 992)) 6))
                (shl32 (vand (uph16 (loadC src (8 * i)) (loadC src (8 * i))) (bcast32 31744)) 9))
              (vandnot
                (blend8 (bcast32 (ta0 A <<< 24)) (bcast32 (ta1 A <<< 24))
                  (sra16 (uph16 (loadC src (8 * i)) (loadC src (8 * i))) 15))
                (veq32 (uph16 (loadC src (8 * i)) (loadC src (8 * i))) vzero)))) dst) n /
      16777216 =
      if src n % 65536 = 0 then 0
      else if src n % 65536 < 32768 then ta0 A else ta1 A := by
  induction k generalizing dst with
  | zero => omega
  | succ k ih =>
    rw [List.range_succ, List.foldl_append, List.foldl_cons, List.foldl_nil]
    by_cases h2 : n < 8 * k
    · rw [expand_step_frame _ _ _ _ _ (by omega)]
      exact ih dst h2
    · rcases Nat.lt_or_ge n (4 * (k * 2) + 4) with hc | hc
      · rw [store32x2_lo _ _ _ _ _ (by omega) (by omega)]
        have hq := upl16_pair_lo src k n (by omega) (by omega)
        exact expandLane_alpha_aem _ _ _ _ _ hq.1 hq.2 (Nat.mod_lt _ (by norm_num))
          Nat.and_le_right Nat.and_le_right
      · rw [store32x2_hi _ _ _ _ _ (by omega) (by omega)]
        have hq := uph16_pair_hi src k n (by omega) (by omega)
        exact expandLane_alpha_aem _ _ _ _ _ hq.1 hq.2 (Nat.mod_lt _ (by norm_num))
          Nat.and_le_right Nat.and_le_right

/-- C5: the 16-bit-storage expansion computes the alpha byte of every
produced entry as follows: with AEM disabled, an entry whose transparency
flag (bit 15) is clear receives `TA0` and a flag-set entry receives `TA1`;
with AEM enabled, an entry whose raw 16-bit value is exactly 0 is forced to
alpha 0, and every other entry follows the TA0/TA1 rule. -/
theorem c5_expand16_alpha (src dst : Buf) (w A n : ℕ) (hn : n < w) (hw : w % 8 = 0) :
    Expand16 src dst w A n / 16777216 =
      if aem A ≠ 0 ∧ src n % 65536 = 0 then 0
      else if src n % 65536 < 32768 then ta0 A else ta1 A := by
  have hn8 : n < 8 * (w >>> 3) := by
    rw [Nat.shiftRight_eq_div_pow]
    omega
  by_cases haem : aem A = 0
  · have h := expand16_cf_noaem src dst A (w >>> 3) n hn8
    simp only [Expand16]
    rw [if_pos haem]
    rw [h]
    simp [haem]
  · have h := expand16_cf_aem src dst A (w >>> 3) n hn8
    simp only [Expand16]
    rw [if_neg haem]
    rw [h]
    simp [haem]


/-- C5 witness: evaluation at `w = 16`, entry 3, with `TEXA = 0`
(AEM disabled, `TA0 = 0`). -/
theorem c5_witness :
    Expand16 (fun k => k) (fun _ => 0) 16 0 3 / 16777216 =
      if aem 0 ≠ 0 ∧ (fun k : ℕ => k) 3 % 65536 = 0 then 0
      else if (fun k : ℕ => k) 3 % 65536 < 32768 then ta0 0 else ta1 0 :=
  c5_expand16_alpha (fun k => k) (fun _ => 0) 16 0 3 (by norm_num) (by norm_num)

/-- C10 witness: evaluation at the clean test state with `TEXA = 255`
(a pure TEXA change) and `TEX0 = 0`. -/
theorem c10_witness :
    (ReadState.IsDirty testState.read 0 255).1 = false ∧
      (Read32 testState 0 255).buff32 = testState.buff32 ∧
      (Read32 testState 0 255).buff64 = testState.buff64 ∧
      (Read32 testState 0 255).read.dirty = false :=
  c10_texa_ignored_32bit testState 0 255 (by decide) (by decide) (by decide) (by decide)

end GSClut
